import Mathlib

/-!
Verification of the client-side market-data pipeline of the limit-order-book
dashboard (`src/ui/streamlit_app.py`) against its specification.

The embedding below translates the relevant pieces of the Python source into
executable Lean definitions:

* numbers entered by the operator and displayed on screen are modelled as
  rationals; where the behaviour of the source depends on IEEE binary64
  arithmetic (the fixed-point price conversion `int(price * 100)` on line 54),
  binary64 rounding is modelled explicitly over exact fractions of naturals,
  kept unreduced so that every step is kernel-computable;
* a JSON record (one price level) is an association list of string keys to
  integers; a pandas column access on a frame built from such records raises
  `KeyError` when no record carries the key, modelled in the `Except` monad;
* the HTTP layer is modelled by `HttpOutcome`: a request either raises a
  transport exception or yields a status code together with a body that
  either parses or raises on `.json()`.
-/

/-! ## Binary64 model for the fixed-point codec (lines 49-64)

A positive rational is represented as an unreduced fraction `n / d` of
naturals.  A binary64 value is represented as a dyadic pair `(m, e)`
denoting `m / 2 ^ e`, with `m` the 53-bit significand. -/

/-- 2 to the power 52, the lower bound of the normalised binary64
significand range. -/
def sigLo : ℕ := 4503599627370496

/-- 2 to the power 53, the upper bound of the normalised binary64
significand range. -/
def sigHi : ℕ := 9007199254740992

/-- Scale the positive fraction `n / d` into the significand range
`[2 ^ 52, 2 ^ 53)` by repeated doubling of one side, returning the scaled
fraction and the exponent `e` such that the scaled fraction equals
`(n / d) * 2 ^ e`.  The first argument is recursion fuel; 1100 steps cover
the full binary64 exponent range and every value evaluated in this
development needs fewer than 60. -/
def flScaleN : ℕ → ℕ → ℕ → ℕ × ℕ × ℤ
  | 0, n, d => (n, d, 0)
  | fuel + 1, n, d =>
    if n < sigLo * d then
      let p := flScaleN fuel (2 * n) d
      (p.1, p.2.1, p.2.2 + 1)
    else if sigHi * d ≤ n then
      let p := flScaleN fuel n (2 * d)
      (p.1, p.2.1, p.2.2 - 1)
    else (n, d, 0)

/-- Round the nonnegative fraction `n / d` to the nearest natural, ties
rounded half-up.  IEEE rounds ties to even, but no evaluation performed in
this development hits an exact tie, so the two agree on every input used
here. -/
def roundFracN (n d : ℕ) : ℕ :=
  (2 * n + d) / (2 * d)

/-- Nearest binary64 value to the nonnegative fraction `n / d`, as a dyadic
pair `(m, e)` denoting `m / 2 ^ e`.  This models the value a Python float
holds after the operator enters the decimal `n / d` or after a float
operation produces that exact quotient. -/
def fl64N (n d : ℕ) : ℕ × ℤ :=
  if n = 0 then (0, 0)
  else
    let s := flScaleN 1100 n d
    (roundFracN s.1 s.2.1, s.2.2)

/-- A dyadic value `m / 2 ^ e` written as an unreduced fraction of
naturals. -/
def dyadicFrac (m : ℕ) (e : ℤ) : ℕ × ℕ :=
  if 0 ≤ e then (m, 2 ^ e.toNat) else (m * 2 ^ (-e).toNat, 1)

/-- Floor of the nonnegative dyadic value `m / 2 ^ e`.  For nonnegative
arguments Python `int()` truncation coincides with floor. -/
def dyadicFloor (m : ℕ) (e : ℤ) : ℕ :=
  if 0 ≤ e then m / 2 ^ e.toNat else m * 2 ^ (-e).toNat

/-- Price conversion inside `submit_order` (line 54 of the source):
`int(price * 100)` where `price` is the binary64 value of the positive
decimal `n / d` entered by the operator and `*` is binary64 multiplication
(the product of a float by the exact constant `100` is the binary64
rounding of the exact product). -/
def wirePriceN (n d : ℕ) : ℕ :=
  let p1 := fl64N n d
  let f := dyadicFrac (100 * p1.1) p1.2
  let p2 := fl64N f.1 f.2
  dyadicFloor p2.1 p2.2

/-- `wirePriceN` as an integer, the value placed in the `price` field of the
order payload (line 54). -/
def wirePrice (n d : ℕ) : ℤ :=
  (wirePriceN n d : ℤ)

/-- Wire encoding as the specification words it (section 4.1): the price
conversion computes `round(value * 100)`, rounding to the nearest cent.
Stated separately so it can be compared with `wirePrice`. -/
def toWire_spec (price : ℚ) : ℤ :=
  round (price * 100)

/-- `format_price` (lines 62-64 of the source): convert a fixed-point
integer price to the decimal it denotes, `price_fp / 100.0`. -/
def format_price (price_fp : ℤ) : ℚ :=
  (price_fp : ℚ) / 100

/-- Claim C1: the fixed-point round-trip `toDisplay(toWire(p)) == p` fails on
the code at the two-decimal price `p = 0.29`.  The binary64 value of `0.29`
times `100` is `28.999999999999996`, which `int()` truncates to `28`, and
`format_price 28 = 0.28 ≠ 0.29`.  This evaluates the code of `submit_order`
(line 54) and `format_price` (line 64) at the failing input. -/
theorem round_trip_fails_at_0_29 :
    wirePrice 29 100 = 28 ∧ format_price (wirePrice 29 100) ≠ 29 / 100 := by
  have h : wirePrice 29 100 = 28 := by decide
  refine ⟨h, ?_⟩
  rw [h]
  unfold format_price
  norm_num

/-- Claim C2: the wire encoding in `submit_order` truncates instead of
rounding to the nearest cent.  At the decimal price `4.35`, the code computes
`int(4.35 * 100) = 434` (the binary64 product is `434.99999999999994`),
while the encoding the specification states, `round(value * 100)`,
yields `435`. -/
theorem wire_encoding_truncates_at_4_35 :
    wirePrice 435 100 = 434 ∧ toWire_spec (435 / 100) = 435 := by
  constructor
  · decide
  · unfold toWire_spec
    norm_num

/-! ## HTTP transport model and the market-data client (lines 39-60) -/

/-- Outcome of one HTTP request, as seen by the Python `try` block: either
the transport raised (connection error, timeout, and so on, carrying the
exception text), or a response arrived with a status code and a body on
which `.json()` either succeeds with a decoded value or raises with a
message (malformed body). -/
inductive HttpOutcome (α : Type) where
  | exn (msg : String)
  | resp (status : ℕ) (body : Except String α)

/-- `fetch_data` (lines 39-47 of the source): issue a GET; if the status is
200 return the decoded JSON body; any raised exception (transport failure,
timeout, malformed body) is swallowed by the bare `except`; every other path
returns `None`. -/
def fetch_data {α : Type} (o : HttpOutcome α) : Option α :=
  match o with
  | .exn _ => none
  | .resp status body => if status = 200 then body.toOption else none

/-- Claim C4: `fetch_data` is fail-soft.  A thrown transport exception or
timeout, a non-success status, or a malformed body all yield the explicit
"no data" result `none` (the function is total, so no exception escapes),
and a success response with a well-formed body yields the decoded JSON. -/
theorem fetch_data_fail_soft {α : Type} :
    (∀ msg : String, fetch_data (HttpOutcome.exn msg : HttpOutcome α) = none)
    ∧ (∀ (s : ℕ) (b : Except String α), s ≠ 200 → fetch_data (HttpOutcome.resp s b) = none)
    ∧ (∀ (s : ℕ) (m : String), fetch_data (HttpOutcome.resp s (Except.error m) : HttpOutcome α) = none)
    ∧ (∀ j : α, fetch_data (HttpOutcome.resp 200 (Except.ok j)) = some j) := by
  refine ⟨fun _ => rfl, fun s b hs => ?_, fun s m => ?_, fun j => rfl⟩
  · simp [fetch_data, hs]
  · by_cases hs : s = 200 <;> simp [fetch_data, hs, Except.toOption]

/-- Witness for claim C4 at concrete inputs: a timeout-style exception, a
500 status, a malformed 200 body, and a well-formed 200 body. -/
theorem fetch_data_fail_soft_witness :
    fetch_data (HttpOutcome.exn "ReadTimeout" : HttpOutcome ℤ) = none
    ∧ fetch_data (HttpOutcome.resp 500 (Except.ok (7 : ℤ))) = none
    ∧ fetch_data (HttpOutcome.resp 200 (Except.error "bad json") : HttpOutcome ℤ) = none
    ∧ fetch_data (HttpOutcome.resp 200 (Except.ok (7 : ℤ))) = some 7 :=
  ⟨fetch_data_fail_soft.1 "ReadTimeout",
   fetch_data_fail_soft.2.1 500 (Except.ok 7) (by decide),
   fetch_data_fail_soft.2.2.1 200 "bad json",
   fetch_data_fail_soft.2.2.2 7⟩

/-! ## Order submission (lines 49-60) -/

/-- Decoded success body of a POST to `/orders`: the acceptance status tag
and the number of trades the order execution produced. -/
structure OrderResult where
  status : String
  tradesCount : ℤ
deriving DecidableEq

/-- Second component of the pair `submit_order` returns: the decoded result
on success, the exception text when the `try` block raised, or nothing at
all (Python `None`) on a non-200 status. -/
inductive SubmitSecond where
  | result (r : OrderResult)
  | reason (msg : String)
  | noReason
deriving DecidableEq

/-- `submit_order` (lines 49-60 of the source), after the price conversion:
post the payload; return `(status == 200, body if status == 200 else None)`;
if anything in the block raises (transport failure, timeout, or `.json()` on
a malformed 200 body) return `(False, str(e))`. -/
def submit_order (o : HttpOutcome OrderResult) : Bool × SubmitSecond :=
  match o with
  | .exn msg => (false, .reason msg)
  | .resp status body =>
    if status = 200 then
      match body with
      | .ok r => (true, .result r)
      | .error msg => (false, .reason msg)
    else (false, .noReason)

/-- Counterexample to claim C6: on a non-success status the failure variant
carries no reason at all — `submit_order` returns `(False, None)` for a 500
response, because line 58 evaluates `response.json() if
response.status_code == 200 else None`.  The claim says every failure
carries a human-readable (non-absent) reason. -/
theorem submit_failure_reason_absent_on_500 :
    submit_order (HttpOutcome.resp 500 (Except.ok ⟨"ACCEPTED", 0⟩)) =
      (false, SubmitSecond.noReason) := by
  decide

/-- Claim C6 as amended: on a thrown transport exception or timeout, and on
a malformed body of a 200 response, the failure variant carries the
exception's message; on a non-success status the failure variant carries an
absent reason (Python `None`); on success the call returns the decoded
structured result. -/
theorem submit_order_case_analysis :
    (∀ msg : String, submit_order (HttpOutcome.exn msg) = (false, SubmitSecond.reason msg))
    ∧ (∀ r : OrderResult,
        submit_order (HttpOutcome.resp 200 (Except.ok r)) = (true, SubmitSecond.result r))
    ∧ (∀ msg : String,
        submit_order (HttpOutcome.resp 200 (Except.error msg)) = (false, SubmitSecond.reason msg))
    ∧ (∀ (s : ℕ) (b : Except String OrderResult),
        s ≠ 200 → submit_order (HttpOutcome.resp s b) = (false, SubmitSecond.noReason)) := by
  refine ⟨fun _ => rfl, fun _ => rfl, fun _ => rfl, fun s b hs => ?_⟩
  simp [submit_order, hs]

/-- Witness for the amended claim C6 at concrete inputs. -/
theorem submit_order_case_analysis_witness :
    submit_order (HttpOutcome.exn "ConnectionError") = (false, SubmitSecond.reason "ConnectionError")
    ∧ submit_order (HttpOutcome.resp 200 (Except.ok ⟨"FILLED", 2⟩)) =
        (true, SubmitSecond.result ⟨"FILLED", 2⟩)
    ∧ submit_order (HttpOutcome.resp 200 (Except.error "invalid json")) =
        (false, SubmitSecond.reason "invalid json")
    ∧ submit_order (HttpOutcome.resp 404 (Except.error "not found")) =
        (false, SubmitSecond.noReason) :=
  ⟨submit_order_case_analysis.1 "ConnectionError",
   submit_order_case_analysis.2.1 ⟨"FILLED", 2⟩,
   submit_order_case_analysis.2.2.1 "invalid json",
   submit_order_case_analysis.2.2.2 404 (Except.error "not found") (by decide)⟩

/-! ## JSON records and the pandas column model (lines 66-122)

A price level arrives as a JSON object, modelled as an association list of
string keys to integers.  `pd.DataFrame(levels)` builds a column for every
key appearing in some record; accessing a column that no record carries
raises `KeyError`.  A record that lacks a key present in other records
contributes a missing entry (`NaN`), modelled as `none`. -/

/-- One decoded JSON object with integer fields. -/
abbrev JsonRec := List (String × ℤ)

/-- Whether a frame built from `levels` has column `k`: some record carries
the key. -/
def hasCol (levels : List JsonRec) (k : String) : Bool :=
  levels.any fun r => (r.lookup k).isSome

/-- The entries of column `k`, one per record in the given order; a record
without the key yields `none` (pandas `NaN`). -/
def colVals (levels : List JsonRec) (k : String) : List (Option ℤ) :=
  levels.map fun r => r.lookup k

/-- Column access `df[k]`: the column's entries when the column exists,
`KeyError` otherwise. -/
def getCol (levels : List JsonRec) (k : String) : Except String (List (Option ℤ)) :=
  if hasCol levels k then .ok (colVals levels k) else .error ("KeyError: " ++ k)

/-- Running (prefix) sums of a list of integers, starting from `acc`. -/
def cumsumAux (acc : ℤ) : List ℤ → List ℤ
  | [] => []
  | q :: qs => (acc + q) :: cumsumAux (acc + q) qs

/-- Running (prefix) sums of a list of integers: `cumsum [a, b, c] =
[a, a + b, a + b + c]`, the semantics of the pandas `cumsum` on a complete
column. -/
def cumsum (l : List ℤ) : List ℤ :=
  cumsumAux 0 l

/-- Pandas `cumsum` on a column with possibly missing entries (default
`skipna`): a missing entry stays missing and the running sum continues past
it. -/
def optCumsumAux (acc : ℤ) : List (Option ℤ) → List (Option ℤ)
  | [] => []
  | none :: qs => none :: optCumsumAux acc qs
  | some q :: qs => some (acc + q) :: optCumsumAux (acc + q) qs

/-- `optCumsumAux` started at zero. -/
def optCumsum (l : List (Option ℤ)) : List (Option ℤ) :=
  optCumsumAux 0 l

/-- One plotted trace of the depth chart: decoded decimal prices on the x
axis, cumulative quantities on the y axis, and the side's name.  Styling
attributes of the source (colours, fill) carry no data and are omitted. -/
structure DepthTrace where
  x : List (Option ℚ)
  y : List (Option ℤ)
  name : String

/-- The traces `create_depth_chart` adds for one side (lines 73-85 and
87-99 of the source): nothing when the level list is empty (`if bids:`),
otherwise one trace whose x column is `price` decoded by `format_price` and
whose y column is the cumulative sum of `quantity`, in the given order. -/
def tracesFor (levels : List JsonRec) (nm : String) : Except String (List DepthTrace) :=
  if levels.isEmpty then .ok []
  else do
    let p ← getCol levels "price"
    let q ← getCol levels "quantity"
    .ok [⟨p.map (Option.map format_price), optCumsum q, nm⟩]

/-- `create_depth_chart` (lines 66-110 of the source): the traces of the
produced figure, bids first, then asks. -/
def create_depth_chart (bids asks : List JsonRec) : Except String (List DepthTrace) := do
  let b ← tracesFor bids "Bids"
  let a ← tracesFor asks "Asks"
  .ok (b ++ a)

/-- The displayed order-book table: columns `Price`, `Quantity`, `Orders`. -/
structure BookTable where
  Price : List (Option ℚ)
  Quantity : List (Option ℤ)
  Orders : List (Option ℤ)

/-- `create_order_book_table` (lines 112-122 of the source): an empty level
list yields an empty frame (`none`); otherwise the `Price` column is the
`price` column decoded by `format_price`, `Quantity` is the `quantity`
column, and `Orders` is read from the key `orders`. -/
def create_order_book_table (levels : List JsonRec) : Except String (Option BookTable) :=
  if levels.isEmpty then .ok none
  else do
    let p ← getCol levels "price"
    let q ← getCol levels "quantity"
    let o ← getCol levels "orders"
    .ok (some ⟨p.map (Option.map format_price), q, o⟩)

/-- Decimal prices of a level list: the `price` field (defaulting a missing
field to zero) decoded by `format_price`. -/
def pricesD (levels : List JsonRec) : List ℚ :=
  levels.map fun r => format_price ((r.lookup "price").getD 0)

/-- Quantities of a level list, defaulting a missing field to zero. -/
def qtys (levels : List JsonRec) : List ℤ :=
  levels.map fun r => (r.lookup "quantity").getD 0

/-- Order counts of a level list (wire key `orders`), defaulting a missing
field to zero. -/
def ordsD (levels : List JsonRec) : List ℤ :=
  levels.map fun r => (r.lookup "orders").getD 0

/-! ### Helper lemmas about columns and prefix sums -/

theorem exceptBind_ok {ε α β : Type} (x : Except ε α) (f : α → Except ε β) (b : β) :
    x.bind f = .ok b ↔ ∃ a, x = .ok a ∧ f a = .ok b := by
  cases x <;> simp [Except.bind]

theorem hasCol_of_all {levels : List JsonRec} {k : String}
    (hne : levels ≠ []) (h : ∀ r ∈ levels, (r.lookup k).isSome) :
    hasCol levels k = true := by
  cases levels with
  | nil => exact absurd rfl hne
  | cons r rs =>
    simp only [hasCol, List.any_eq_true]
    exact ⟨r, List.mem_cons_self r rs, h r (List.mem_cons_self r rs)⟩

theorem getCol_ok {levels : List JsonRec} {k : String}
    (hne : levels ≠ []) (h : ∀ r ∈ levels, (r.lookup k).isSome) :
    getCol levels k = .ok (colVals levels k) := by
  simp [getCol, hasCol_of_all hne h]

theorem colVals_of_all {levels : List JsonRec} {k : String}
    (h : ∀ r ∈ levels, (r.lookup k).isSome) :
    colVals levels k = (levels.map fun r => (r.lookup k).getD 0).map some := by
  induction levels with
  | nil => rfl
  | cons r rs ih =>
    obtain ⟨v, hv⟩ := Option.isSome_iff_exists.mp (h r (List.mem_cons_self r rs))
    have ih' := ih fun x hx => h x (List.mem_cons_of_mem _ hx)
    simp only [colVals, List.map_cons, List.map_map] at ih' ⊢
    rw [hv]
    exact congrArg₂ List.cons rfl ih'

theorem optCumsumAux_map_some (acc : ℤ) (l : List ℤ) :
    optCumsumAux acc (l.map some) = (cumsumAux acc l).map some := by
  induction l generalizing acc with
  | nil => rfl
  | cons q qs ih => simp [optCumsumAux, cumsumAux, ih]

theorem cumsumAux_chain (acc : ℤ) (l : List ℤ) (h : ∀ q ∈ l, 0 ≤ q) :
    List.Chain' (· ≤ ·) (cumsumAux acc l) := by
  induction l generalizing acc with
  | nil => exact List.chain'_nil
  | cons q qs ih =>
    rw [cumsumAux, List.chain'_cons']
    refine ⟨?_, ih (acc + q) fun x hx => h x (List.mem_cons_of_mem _ hx)⟩
    intro b hb
    cases qs with
    | nil => simp [cumsumAux] at hb
    | cons q' qs' =>
      simp only [cumsumAux, List.head?_cons, Option.mem_def, Option.some.injEq] at hb
      have hq' : 0 ≤ q' := h q' (List.mem_cons_of_mem _ (List.mem_cons_self q' qs'))
      omega

theorem cumsumAux_getLast (acc : ℤ) (l : List ℤ) (h : l ≠ []) :
    (cumsumAux acc l).getLast? = some (acc + l.sum) := by
  induction l generalizing acc with
  | nil => exact absurd rfl h
  | cons q qs ih =>
    cases qs with
    | nil => simp [cumsumAux]
    | cons q' qs' =>
      have h2 : cumsumAux (acc + q) (q' :: qs') =
          (acc + q + q') :: cumsumAux (acc + q + q') qs' := rfl
      rw [cumsumAux, h2, List.getLast?_cons_cons, ← h2,
        ih (acc + q) (List.cons_ne_nil q' qs')]
      simp [add_assoc]

theorem bind_ok_eq {ε α β : Type} (a : α) (f : α → Except ε β) :
    (Except.ok a : Except ε α) >>= f = f a := rfl

/-- Claim C5: for every non-empty level sequence whose records carry `price`
and `quantity` fields with non-negative quantities, the depth trace built
for that side carries the prices decoded by `format_price` (`price / 100.0`)
and the prefix sums of the quantities in the given order — no reordering, no
deduplication — so the cumulative column is non-decreasing and its last
entry is the sum of all quantities. -/
theorem depth_curve_cumulative_correct (levels : List JsonRec) (nm : String)
    (hne : levels ≠ [])
    (hp : ∀ r ∈ levels, (r.lookup "price").isSome)
    (hq : ∀ r ∈ levels, (r.lookup "quantity").isSome)
    (hq0 : ∀ r ∈ levels, 0 ≤ (r.lookup "quantity").getD 0) :
    tracesFor levels nm =
      .ok [⟨(pricesD levels).map some, (cumsum (qtys levels)).map some, nm⟩]
    ∧ List.Chain' (· ≤ ·) (cumsum (qtys levels))
    ∧ (cumsum (qtys levels)).getLast? = some (qtys levels).sum := by
  have hempty : levels.isEmpty = false := by
    cases levels with
    | nil => exact absurd rfl hne
    | cons r rs => rfl
  have hne' : qtys levels ≠ [] := by
    cases levels with
    | nil => exact absurd rfl hne
    | cons r rs => simp [qtys]
  refine ⟨?_, ?_, ?_⟩
  · simp only [tracesFor, hempty, Bool.false_eq_true, if_false]
    rw [getCol_ok hne hp, getCol_ok hne hq]
    simp only [bind_ok_eq]
    rw [colVals_of_all hp, colVals_of_all hq]
    simp only [optCumsum, optCumsumAux_map_some]
    simp [List.map_map, Function.comp, pricesD, qtys, cumsum]
  · refine cumsumAux_chain 0 (qtys levels) ?_
    intro x hx
    simp only [qtys, List.mem_map] at hx
    obtain ⟨r, hr, rfl⟩ := hx
    exact hq0 r hr
  · simpa [cumsum] using cumsumAux_getLast 0 (qtys levels) hne'

/-- Concrete witness for claim C5: the book-aggregation example of the
specification, bids `[(10450, 100), (10400, 50)]`. -/
def lvlsDepth : List JsonRec :=
  [[("price", 10450), ("quantity", 100)], [("price", 10400), ("quantity", 50)]]

/-- Witness for claim C5 at the specification's own example input. -/
theorem depth_curve_cumulative_correct_witness :
    tracesFor lvlsDepth "Bids" =
      .ok [⟨(pricesD lvlsDepth).map some, (cumsum (qtys lvlsDepth)).map some, "Bids"⟩]
    ∧ List.Chain' (· ≤ ·) (cumsum (qtys lvlsDepth))
    ∧ (cumsum (qtys lvlsDepth)).getLast? = some (qtys lvlsDepth).sum :=
  depth_curve_cumulative_correct lvlsDepth "Bids" (by decide) (by decide) (by decide)
    (by decide)

/-- A price level carrying exactly the fields of the specification's data
model: `price`, `quantity`, `orderCount`. -/
def lvlOrderCount : JsonRec :=
  [("price", 10450), ("quantity", 100), ("orderCount", 3)]

/-- Counterexample to claim C7: on a level carrying exactly the PriceLevel
fields of the data model (`price`, `quantity`, `orderCount`),
`create_order_book_table` does not succeed — line 120 reads the column
`orders`, which no record carries, so the access raises `KeyError`. -/
theorem order_book_table_keyerror_on_orderCount :
    create_order_book_table [lvlOrderCount] = Except.error "KeyError: orders" := rfl

/-- Claim C7 as amended: the wire field the code decodes for the order count
is named `orders`, not `orderCount`.  For every non-empty level sequence
whose records carry `price`, `quantity` and `orders`, the table succeeds
with `Price = price / 100.0`, `Quantity = quantity`, and `Orders = orders`,
one row per level in the given order. -/
theorem order_book_table_decodes_orders (levels : List JsonRec)
    (hne : levels ≠ [])
    (hp : ∀ r ∈ levels, (r.lookup "price").isSome)
    (hq : ∀ r ∈ levels, (r.lookup "quantity").isSome)
    (ho : ∀ r ∈ levels, (r.lookup "orders").isSome) :
    create_order_book_table levels =
      .ok (some ⟨(pricesD levels).map some, (qtys levels).map some,
        (ordsD levels).map some⟩) := by
  have hempty : levels.isEmpty = false := by
    cases levels with
    | nil => exact absurd rfl hne
    | cons r rs => rfl
  simp only [create_order_book_table, hempty, Bool.false_eq_true, if_false]
  rw [getCol_ok hne hp, getCol_ok hne hq, getCol_ok hne ho]
  simp only [bind_ok_eq]
  rw [colVals_of_all hp, colVals_of_all hq, colVals_of_all ho]
  simp [List.map_map, Function.comp, pricesD, qtys, ordsD]

/-- Two levels carrying the wire fields the code reads. -/
def lvlsBook : List JsonRec :=
  [[("price", 10450), ("quantity", 100), ("orders", 3)],
   [("price", 10400), ("quantity", 50), ("orders", 2)]]

/-- Witness for the amended claim C7 at a concrete two-level book side. -/
theorem order_book_table_decodes_orders_witness :
    create_order_book_table lvlsBook =
      .ok (some ⟨(pricesD lvlsBook).map some, (qtys lvlsBook).map some,
        (ordsD lvlsBook).map some⟩) :=
  order_book_table_decodes_orders lvlsBook (by decide) (by decide) (by decide) (by decide)

theorem bind_error_eq {ε α β : Type} (e : ε) (f : α → Except ε β) :
    (Except.error e : Except ε α) >>= f = Except.error e := rfl

theorem exceptMap_ok {ε α β : Type} (x : Except ε α) (f : α → β) (b : β) :
    x.map f = .ok b ↔ ∃ a, x = .ok a ∧ f a = b := by
  cases x <;> simp [Except.map]

/-! ## Quote metrics (lines 176-190) -/

/-- The `/quote` payload: every field may be absent. -/
structure Quote where
  bestBid : Option ℤ
  bestAsk : Option ℤ
  spread : Option ℤ

/-- Python truthiness of `quote.get(k)` for an integer field: falsy exactly
when the field is absent or zero. -/
def optTruthy (v : Option ℤ) : Bool :=
  match v with
  | some z => z != 0
  | none => false

/-- Line 184 of the source:
`format_price(quote['bestAsk']) if quote.get('bestAsk') else 0`. -/
def best_ask_display (q : Quote) : ℚ :=
  if optTruthy q.bestAsk then format_price (q.bestAsk.getD 0) else 0

/-- Line 188 of the source:
`format_price(quote['spread']) if quote.get('spread') else 0`. -/
def spread_display (q : Quote) : ℚ :=
  if optTruthy q.spread then format_price (q.spread.getD 0) else 0

/-- Line 189 of the source:
`(spread / best_ask * 10000) if best_ask > 0 else 0`. -/
def spread_bps (q : Quote) : ℚ :=
  if best_ask_display q > 0 then spread_display q / best_ask_display q * 10000 else 0

/-- Claim C10: the spread-in-basis-points computation is guarded.  When the
best ask is absent or zero the guard `best_ask > 0` fails and the value
falls back to `0`, so the division is never executed with an absent or zero
best ask; when the best ask is a positive fixed-point value `v`, the value
is `spread / best_ask * 10000` with `best_ask = v / 100`. -/
theorem spread_bps_guarded (q : Quote) (v : ℤ) :
    (q.bestAsk = none → spread_bps q = 0)
    ∧ (q.bestAsk = some 0 → spread_bps q = 0)
    ∧ (q.bestAsk = some v → 0 < v →
        spread_bps q = spread_display q / format_price v * 10000) := by
  refine ⟨fun h => ?_, fun h => ?_, fun h hv => ?_⟩
  · simp [spread_bps, best_ask_display, h, optTruthy]
  · simp [spread_bps, best_ask_display, h, optTruthy]
  · have hne : v ≠ 0 := ne_of_gt hv
    have hdisp : best_ask_display q = format_price v := by
      simp [best_ask_display, h, optTruthy, hne]
    have hpos : (0 : ℚ) < format_price v := by
      have hv' : (0 : ℚ) < (v : ℚ) := by exact_mod_cast hv
      unfold format_price
      positivity
    unfold spread_bps
    rw [hdisp, if_pos hpos]

/-- Quote with both sides present, the specification's quote example. -/
def qFull : Quote := ⟨some 10450, some 10500, some 50⟩

/-- Quote with the spread present but the best ask absent. -/
def qNoAsk : Quote := ⟨some 10450, none, some 50⟩

/-- Quote with the spread present but the best ask zero. -/
def qZeroAsk : Quote := ⟨some 10450, some 0, some 50⟩

/-- Witness for claim C10 at concrete quotes: absent ask, zero ask, and the
specification's example quote. -/
theorem spread_bps_guarded_witness :
    spread_bps qNoAsk = 0 ∧ spread_bps qZeroAsk = 0
    ∧ spread_bps qFull = spread_display qFull / format_price 10500 * 10000 :=
  ⟨(spread_bps_guarded qNoAsk 1).1 rfl, (spread_bps_guarded qZeroAsk 1).2.1 rfl,
   (spread_bps_guarded qFull 10500).2.2 rfl (by decide)⟩

/-! ## The render cycle (lines 147-287)

One Streamlit script run is one fetch-render cycle: read the widget state,
fetch quote, book and stats, run the availability check (which calls
`st.stop()` and ends the run), render each section, fetch trades, and
finally sleep and schedule a rerun when auto-refresh is on.  `renderCycle`
maps the cycle's inputs — the widget flag and what each fetch would return —
to the observable outcome of the run; a raised `KeyError` from the book
section aborts the run as an `Except.error`. -/

/-- One executed trade from the `/trades` payload. -/
structure Trade where
  buyOrderId : ℤ
  sellOrderId : ℤ
  price : ℤ
  quantity : ℤ

/-- The `/stats` payload; the renderer defaults each absent field. -/
structure Stats where
  activeOrders : Option ℤ
  poolUtilization : Option ℤ
  poolCapacity : Option ℤ
  bidLevels : Option ℤ
  askLevels : Option ℤ

/-- The `/book` payload: `book.get('bids', [])` and `book.get('asks', [])`
already defaulted to empty lists. -/
structure Book where
  bids : List JsonRec
  asks : List JsonRec

/-- Inputs of one cycle: the auto-refresh checkbox state at the start of the
script run, and the result each read would deliver (`none` is the fail-soft
"no data" of `fetch_data`). -/
structure CycleInput where
  autoRefresh : Bool
  quote : Option Quote
  book : Option Book
  stats : Option Stats
  trades : Option (List Trade)

/-- Observable outcome of one cycle. -/
structure CycleOutput where
  unavailableNotice : Bool
  stopped : Bool
  quoteRendered : Bool
  depthChartRendered : Bool
  bidsPlaceholder : Bool
  asksPlaceholder : Bool
  statsRendered : Bool
  tradesFetched : Bool
  tradesTableShown : Bool
  rerunScheduled : Bool

/-- Outcome of the availability branch (lines 160-172): one unavailable
notice, `st.stop()`, nothing rendered, the trades fetch never issued, and no
rerun scheduled because line 285 is never reached. -/
def stopOutput : CycleOutput :=
  { unavailableNotice := true, stopped := true, quoteRendered := false,
    depthChartRendered := false, bidsPlaceholder := false, asksPlaceholder := false,
    statsRendered := false, tradesFetched := false, tradesTableShown := false,
    rerunScheduled := false }

/-- The book section (lines 195-233): when a book snapshot is present, build
the depth chart and both tables; a table that is empty shows the side's
placeholder (`st.info`) instead.  Returns (chart rendered, bids placeholder,
asks placeholder). -/
def bookSection (b : Option Book) : Except String (Bool × Bool × Bool) :=
  match b with
  | none => .ok (false, false, false)
  | some bk => do
    let _ ← create_depth_chart bk.bids bk.asks
    let bt ← create_order_book_table bk.bids
    let at2 ← create_order_book_table bk.asks
    .ok (true, bt.isNone, at2.isNone)

/-- One fetch-render cycle (lines 147-287): if quote, book and stats all
came back as "no data", show the single backend-unavailable notice and stop
(lines 160-172); otherwise render the quote metrics, book section and stats
section for whichever snapshots are present, fetch trades and show the
trades table when trades exist (lines 258-277), and schedule a rerun exactly
when the auto-refresh flag is set (lines 285-287). -/
def renderCycle (inp : CycleInput) : Except String CycleOutput :=
  if inp.quote.isNone && inp.book.isNone && inp.stats.isNone then .ok stopOutput
  else
    (bookSection inp.book).map fun bs =>
      { unavailableNotice := false, stopped := false,
        quoteRendered := inp.quote.isSome,
        depthChartRendered := bs.1, bidsPlaceholder := bs.2.1, asksPlaceholder := bs.2.2,
        statsRendered := inp.stats.isSome,
        tradesFetched := true,
        tradesTableShown := (match inp.trades with
          | some ts => !ts.isEmpty
          | none => false),
        rerunScheduled := inp.autoRefresh }

/-- Whether the cycle on `inp` schedules a further automatic cycle: a run
that stops or raises never reaches `st.rerun()`. -/
def rerunOf (inp : CycleInput) : Bool :=
  match renderCycle inp with
  | .ok o => o.rerunScheduled
  | .error _ => false

/-- Whether cycle `n` of the polling loop runs automatically, given the
per-cycle inputs: cycle 0 is the user-triggered run, and cycle `n + 1` runs
only when cycle `n` ran and scheduled a rerun. -/
def autoRuns (inps : ℕ → CycleInput) : ℕ → Bool
  | 0 => true
  | n + 1 => autoRuns inps n && rerunOf (inps n)

theorem renderCycle_ok_elim {inp : CycleInput} {out : CycleOutput}
    (h : renderCycle inp = .ok out) :
    ((inp.quote.isNone && inp.book.isNone && inp.stats.isNone) = true ∧ out = stopOutput)
    ∨ ((inp.quote.isNone && inp.book.isNone && inp.stats.isNone) = false
       ∧ out.unavailableNotice = false ∧ out.stopped = false
       ∧ out.quoteRendered = inp.quote.isSome
       ∧ out.statsRendered = inp.stats.isSome
       ∧ out.tradesFetched = true
       ∧ out.rerunScheduled = inp.autoRefresh) := by
  by_cases hc : (inp.quote.isNone && inp.book.isNone && inp.stats.isNone) = true
  · left
    refine ⟨hc, ?_⟩
    unfold renderCycle at h
    rw [if_pos hc] at h
    exact (Except.ok.inj h).symm
  · right
    have hc' := Bool.eq_false_iff.mpr hc
    unfold renderCycle at h
    rw [if_neg hc] at h
    obtain ⟨bs, hbs, hout⟩ := (exceptMap_ok _ _ _).mp h
    subst hout
    exact ⟨hc', rfl, rfl, rfl, rfl, rfl, rfl⟩

theorem rerunOf_true_flag {inp : CycleInput} (h : rerunOf inp = true) :
    inp.autoRefresh = true := by
  unfold rerunOf at h
  cases hr : renderCycle inp with
  | error e => rw [hr] at h; simp at h
  | ok o =>
    rw [hr] at h
    have h' : o.rerunScheduled = true := h
    rcases renderCycle_ok_elim hr with ⟨_, rfl⟩ | ⟨_, _, _, _, _, _, hrr⟩
    · simp [stopOutput] at h'
    · rw [hrr] at h'
      exact h'

/-- A sample executed trade. -/
def tr0 : Trade := ⟨1, 2, 10450, 5⟩

/-- Cycle input with every read failed and auto-refresh off. -/
def inpDown : CycleInput := ⟨false, none, none, none, none⟩

/-- Cycle input where quote, book and stats fail but the trades read would
return data. -/
def inpDownTrades : CycleInput := ⟨false, none, none, none, some [tr0]⟩

/-- Cycle input with every read failed and auto-refresh on. -/
def inpDownAuto : CycleInput := ⟨true, none, none, none, none⟩

/-- Counterexample to claim C3: the backend-unavailable state is not
surfaced "only when all four reads have failed".  In a cycle where quote,
book and stats fail but the trades read would return a trade, the code still
shows the unavailable notice and stops — the availability check on line 160
consults only three reads, and the trades fetch on line 258 is never even
issued in such a cycle. -/
theorem unavailable_shown_without_trades_failure :
    renderCycle inpDownTrades = .ok stopOutput
    ∧ stopOutput.unavailableNotice = true
    ∧ stopOutput.tradesFetched = false
    ∧ inpDownTrades.trades = some [tr0] :=
  ⟨rfl, rfl, rfl, rfl⟩

/-- Claim C3 as amended: the single backend-unavailable state is surfaced
exactly when the quote, book and stats reads all return "no data"; the
trades read is not consulted (in an unavailable cycle it is never issued).
When surfaced, it is one notice, the cycle stops, and no chart, table or
stats rendering happens in that cycle. -/
theorem unavailable_iff_quote_book_stats_fail (inp : CycleInput) (out : CycleOutput)
    (h : renderCycle inp = .ok out) :
    (out.unavailableNotice = true ↔ (inp.quote = none ∧ inp.book = none ∧ inp.stats = none))
    ∧ (out.unavailableNotice = true →
        out.stopped = true ∧ out.tradesFetched = false ∧ out.quoteRendered = false
        ∧ out.depthChartRendered = false ∧ out.statsRendered = false) := by
  rcases renderCycle_ok_elim h with ⟨hc, rfl⟩ | ⟨hc, hun, hst, hqr, hsr, htf, _⟩
  · simp only [Bool.and_eq_true, Option.isNone_iff_eq_none] at hc
    exact ⟨iff_of_true rfl ⟨hc.1.1, hc.1.2, hc.2⟩, fun _ => ⟨rfl, rfl, rfl, rfl, rfl⟩⟩
  · constructor
    · constructor
      · intro habs
        rw [hun] at habs
        exact absurd habs (by simp)
      · rintro ⟨h1, h2, h3⟩
        exfalso
        rw [h1, h2, h3] at hc
        simp at hc
    · intro habs
      rw [hun] at habs
      exact absurd habs (by simp)

/-- Witness for the amended claim C3 at the all-down cycle input. -/
theorem unavailable_iff_quote_book_stats_fail_witness :
    (stopOutput.unavailableNotice = true ↔
      (inpDown.quote = none ∧ inpDown.book = none ∧ inpDown.stats = none))
    ∧ (stopOutput.unavailableNotice = true →
        stopOutput.stopped = true ∧ stopOutput.tradesFetched = false
        ∧ stopOutput.quoteRendered = false ∧ stopOutput.depthChartRendered = false
        ∧ stopOutput.statsRendered = false) :=
  unavailable_iff_quote_book_stats_fail inpDown stopOutput rfl

/-- Claim C8: empty inputs degrade gracefully.  An empty level sequence
yields no depth trace for that side and the chart build does not fail — with
both sides empty the figure has no traces, and with one side empty the
figure holds exactly the other side's traces.  An empty level list yields
the empty table, and the book section then shows the placeholder for that
side instead of failing. -/
theorem empty_levels_yield_empty_outputs :
    create_depth_chart [] [] = .ok []
    ∧ (∀ asks : List JsonRec, create_depth_chart [] asks = tracesFor asks "Asks")
    ∧ (∀ bids : List JsonRec, create_depth_chart bids [] = tracesFor bids "Bids")
    ∧ create_order_book_table [] = .ok none
    ∧ bookSection (some ⟨[], []⟩) = .ok (true, true, true) := by
  have hnil : ∀ nm : String, tracesFor [] nm = .ok [] := fun _ => rfl
  refine ⟨rfl, fun asks => ?_, fun bids => ?_, rfl, rfl⟩
  · cases h : tracesFor asks "Asks" with
    | error e => simp [create_depth_chart, h, hnil, bind_ok_eq, bind_error_eq]
    | ok a => simp [create_depth_chart, h, hnil, bind_ok_eq]
  · cases h : tracesFor bids "Bids" with
    | error e => simp [create_depth_chart, h, hnil, bind_error_eq]
    | ok b => simp [create_depth_chart, h, hnil, bind_ok_eq]

/-- Counterexample to claim C9: the loop does not schedule another cycle
"if and only if the auto-refresh flag is enabled at the end of the current
cycle".  In an all-down cycle with the flag enabled, `st.stop()` on line 172
ends the run before the rerun on line 287, so no further cycle is scheduled
although the flag is on. -/
theorem no_rerun_despite_flag_when_all_down :
    renderCycle inpDownAuto = .ok stopOutput
    ∧ inpDownAuto.autoRefresh = true
    ∧ stopOutput.rerunScheduled = false :=
  ⟨rfl, rfl, rfl⟩

/-- Claim C9 as amended: a completed cycle schedules a further fetch-render
cycle (sleep then rerun) exactly when the auto-refresh flag is enabled and
the cycle was not stopped by the backend-unavailable check; in particular
cancellation takes effect at the cycle boundary — once the flag is off at
some cycle, no later cycle of the loop runs automatically, so no further
fetch is issued by the loop. -/
theorem auto_refresh_rerun_characterization :
    (∀ (inp : CycleInput) (out : CycleOutput), renderCycle inp = .ok out →
      (out.rerunScheduled = true ↔ (inp.autoRefresh = true ∧ out.stopped = false)))
    ∧ (∀ (inps : ℕ → CycleInput) (n m : ℕ),
        (inps n).autoRefresh = false → n < m → autoRuns inps m = false) := by
  constructor
  · intro inp out h
    rcases renderCycle_ok_elim h with ⟨_, rfl⟩ | ⟨_, _, hst, _, _, _, hrr⟩
    · simp [stopOutput]
    · rw [hrr, hst]
      simp
  · intro inps n m hflag
    induction m with
    | zero => intro hlt; exact absurd hlt (Nat.not_lt_zero n)
    | succ k ih =>
      intro hlt
      rw [autoRuns]
      rcases Nat.lt_succ_iff_lt_or_eq.mp hlt with hlt' | rfl
      · rw [ih hlt', Bool.false_and]
      · have hre : rerunOf (inps n) = false := by
          cases hb : rerunOf (inps n)
          · rfl
          · have := rerunOf_true_flag hb
            rw [hflag] at this
            simp at this
        rw [hre, Bool.and_false]

/-- Witness for the amended claim C9: the all-down stopped cycle satisfies
the characterisation, and with the flag off at cycle 0 the loop does not run
cycle 1. -/
theorem auto_refresh_rerun_characterization_witness :
    (stopOutput.rerunScheduled = true ↔
      (inpDownAuto.autoRefresh = true ∧ stopOutput.stopped = false))
    ∧ autoRuns (fun _ => inpDown) 1 = false :=
  ⟨auto_refresh_rerun_characterization.1 inpDownAuto stopOutput rfl,
   auto_refresh_rerun_characterization.2 (fun _ => inpDown) 0 1 rfl Nat.zero_lt_one⟩
